import Mathlib

/-!
Shallow embedding of the touring-route optimizer of `theme-park-mcp`
(`src/theme_park_mcp/data/touring.py` and the comparison logic of
`src/theme_park_mcp/data/historical.py`).

Modelling conventions:
* Python dicts for rides become the `Ride` structure; the scratch key
  `priority_score` that `optimize_route` writes into each candidate dict is
  modelled as an `Option ℚ` field (`none` = key absent).
* Python float arithmetic is modelled over `ℚ` (the constants 0.7/0.3 and
  `round(x, 1)` become exact rationals with round-half-to-even).
* Python `int` becomes `Int`; walk-time tables are association lists looked
  up exactly as the source does (both orientations, fixed defaults).
* CPython iterates `set(rides_by_land.keys())` in an unspecified,
  hash-dependent order; `optimize_route` therefore takes that iteration
  order as an explicit `set_order : List String` argument.  A faithful run
  of the source corresponds to any `set_order` that is a permutation of the
  first-occurrence list of candidate lands (`group_lands`).
* In-place mutation of the caller's ride dicts is modelled by
  `optimize_route_rides_after`, the value of the caller's list after the
  call returns.
-/

namespace ThemePark

/-- A ride record as produced by `parse_wait_times` (touring.py consumes
`name`, `land`, `is_open`, `wait_time`), plus the scratch `priority_score`
key that `optimize_route` writes into the dict (`none` = key absent). -/
structure Ride where
  name : String
  land : String
  is_open : Bool
  wait_time : Option Int
  priority_score : Option ℚ := none
deriving DecidableEq, Repr

/-- A park layout entry of `PARK_LAYOUTS` (touring.py lines 23-180).  Only
the fields read by `get_walk_time` / `get_land_order` are carried:
`walk_times` and `entry_land` (`name` kept for completeness; the
`lands`/`adjacent` sub-table is documentary and never read by the verified
functions). -/
structure Layout where
  name : String
  walk_times : List ((String × String) × Int)
  entry_land : String
deriving DecidableEq, Repr

/-- `PARK_LAYOUTS[6]` (Magic Kingdom). -/
def magicKingdom : Layout :=
  { name := "Magic Kingdom"
    walk_times :=
      [ (("Main Street, U.S.A.", "Adventureland"), 3)
      , (("Main Street, U.S.A.", "Tomorrowland"), 3)
      , (("Adventureland", "Frontierland"), 3)
      , (("Frontierland", "Liberty Square"), 2)
      , (("Liberty Square", "Fantasyland"), 3)
      , (("Fantasyland", "Tomorrowland"), 4)
      , (("Main Street, U.S.A.", "Frontierland"), 6)
      , (("Main Street, U.S.A.", "Liberty Square"), 7)
      , (("Main Street, U.S.A.", "Fantasyland"), 8)
      , (("Adventureland", "Liberty Square"), 5)
      , (("Adventureland", "Fantasyland"), 8)
      , (("Adventureland", "Tomorrowland"), 10)
      , (("Frontierland", "Fantasyland"), 5)
      , (("Frontierland", "Tomorrowland"), 9)
      , (("Liberty Square", "Tomorrowland"), 7) ]
    entry_land := "Main Street, U.S.A." }

/-- `PARK_LAYOUTS[5]` (EPCOT). -/
def epcot : Layout :=
  { name := "EPCOT"
    walk_times :=
      [ (("World Celebration", "World Discovery"), 5)
      , (("World Celebration", "World Nature"), 5)
      , (("World Discovery", "World Showcase"), 8)
      , (("World Nature", "World Showcase"), 8)
      , (("World Celebration", "World Showcase"), 12)
      , (("World Discovery", "World Nature"), 10) ]
    entry_land := "World Celebration" }

/-- `PARK_LAYOUTS[7]` (Hollywood Studios). -/
def hollywoodStudios : Layout :=
  { name := "Hollywood Studios"
    walk_times :=
      [ (("Hollywood Boulevard", "Echo Lake"), 3)
      , (("Hollywood Boulevard", "Sunset Boulevard"), 3)
      , (("Echo Lake", "Star Wars: Galaxy's Edge"), 5)
      , (("Sunset Boulevard", "Toy Story Land"), 6)
      , (("Star Wars: Galaxy's Edge", "Toy Story Land"), 5)
      , (("Star Wars: Galaxy's Edge", "Grand Avenue"), 3)
      , (("Grand Avenue", "Hollywood Boulevard"), 4)
      , (("Hollywood Boulevard", "Star Wars: Galaxy's Edge"), 8)
      , (("Hollywood Boulevard", "Toy Story Land"), 9)
      , (("Echo Lake", "Toy Story Land"), 10)
      , (("Echo Lake", "Sunset Boulevard"), 6)
      , (("Sunset Boulevard", "Star Wars: Galaxy's Edge"), 10)
      , (("Sunset Boulevard", "Grand Avenue"), 7)
      , (("Echo Lake", "Grand Avenue"), 6) ]
    entry_land := "Hollywood Boulevard" }

/-- `PARK_LAYOUTS[8]` (Animal Kingdom). -/
def animalKingdom : Layout :=
  { name := "Animal Kingdom"
    walk_times :=
      [ (("Oasis", "Discovery Island"), 3)
      , (("Discovery Island", "Africa"), 4)
      , (("Discovery Island", "Asia"), 5)
      , (("Discovery Island", "Pandora - The World of Avatar"), 4)
      , (("Discovery Island", "DinoLand U.S.A."), 5)
      , (("Africa", "Asia"), 6)
      , (("Asia", "DinoLand U.S.A."), 4)
      , (("Oasis", "Africa"), 7)
      , (("Oasis", "Asia"), 8)
      , (("Oasis", "Pandora - The World of Avatar"), 7)
      , (("Oasis", "DinoLand U.S.A."), 8)
      , (("Africa", "Pandora - The World of Avatar"), 8)
      , (("Africa", "DinoLand U.S.A."), 9)
      , (("Asia", "Pandora - The World of Avatar"), 9)
      , (("Pandora - The World of Avatar", "DinoLand U.S.A."), 9) ]
    entry_land := "Oasis" }

/-- `PARK_LAYOUTS[64]` (Universal Studios Florida). -/
def universalStudios : Layout :=
  { name := "Universal Studios Florida"
    walk_times :=
      [ (("Production Central", "New York"), 3)
      , (("Production Central", "Hollywood"), 3)
      , (("New York", "San Francisco"), 4)
      , (("San Francisco", "The Wizarding World of Harry Potter - Diagon Alley"), 3)
      , (("The Wizarding World of Harry Potter - Diagon Alley", "World Expo"), 4)
      , (("World Expo", "Springfield"), 3)
      , (("Springfield", "Woody Woodpecker's KidZone"), 3)
      , (("Woody Woodpecker's KidZone", "Hollywood"), 4) ]
    entry_land := "Production Central" }

/-- `PARK_LAYOUTS[65]` (Islands of Adventure). -/
def islandsOfAdventure : Layout :=
  { name := "Islands of Adventure"
    walk_times :=
      [ (("Port of Entry", "Marvel Super Hero Island"), 3)
      , (("Port of Entry", "Seuss Landing"), 3)
      , (("Marvel Super Hero Island", "Toon Lagoon"), 4)
      , (("Toon Lagoon", "Skull Island"), 3)
      , (("Skull Island", "Jurassic Park"), 4)
      , (("Jurassic Park", "The Wizarding World of Harry Potter - Hogsmeade"), 4)
      , (("The Wizarding World of Harry Potter - Hogsmeade", "The Lost Continent"), 3)
      , (("The Lost Continent", "Seuss Landing"), 4) ]
    entry_land := "Port of Entry" }

/-- `PARK_LAYOUTS.get(park_id)` (touring.py line 188 / 211). -/
def park_layout (park_id : Int) : Option Layout :=
  if park_id = 6 then some magicKingdom
  else if park_id = 5 then some epcot
  else if park_id = 7 then some hollywoodStudios
  else if park_id = 8 then some animalKingdom
  else if park_id = 64 then some universalStudios
  else if park_id = 65 then some islandsOfAdventure
  else none

/-- `get_walk_time(park_id, from_land, to_land)` (touring.py lines 183-203):
0 on a self-loop, 5 for an unknown park, otherwise the table entry looked up
in both orientations with default 7. -/
def get_walk_time (park_id : Int) (from_land to_land : String) : Int :=
  if from_land = to_land then 0
  else
    match park_layout park_id with
    | none => 5
    | some layout =>
      match layout.walk_times.lookup (from_land, to_land) with
      | some t => t
      | none =>
        match layout.walk_times.lookup (to_land, from_land) with
        | some t => t
        | none => 7

/-- Python's `min(iterable, key=...)`: the first element of the iteration
attaining the minimal key (ties keep the earliest element).  Used by
`get_land_order` (touring.py lines 222-225 and 232-235). -/
def min_by_walk (park_id : Int) (base : String) : List String → Option String
  | [] => none
  | l :: ls =>
    some (ls.foldl
      (fun best x =>
        if get_walk_time park_id base x < get_walk_time park_id base best then x else best)
      l)

/-- The greedy nearest-neighbour loop of `get_land_order` (touring.py lines
231-238), with explicit fuel (`remaining.length` at the call site) standing
for the `while remaining:` loop. -/
def greedy_order (park_id : Int) : Nat → String → List String → List String
  | 0, _, _ => []
  | n + 1, current, remaining =>
    match min_by_walk park_id current remaining with
    | none => []
    | some next_land =>
      next_land :: greedy_order park_id n next_land (remaining.erase next_land)

/-- `get_land_order(park_id, lands_to_visit)` (touring.py lines 206-240).
The Python argument is a `set`; `lands_to_visit` here is that set in its
(unspecified) CPython iteration order.  The source raises `ValueError` on an
empty set whose park has a layout (`min` of nothing); that path is
unreachable from `optimize_route` and is modelled as `[]`. -/
def get_land_order (park_id : Int) (lands_to_visit : List String) : List String :=
  match park_layout park_id with
  | none => lands_to_visit
  | some layout =>
    let entry := layout.entry_land
    let current :=
      if lands_to_visit.contains entry then entry
      else (min_by_walk park_id entry lands_to_visit).getD entry
    if lands_to_visit.isEmpty then []
    else current :: greedy_order park_id (lands_to_visit.erase current).length current
      (lands_to_visit.erase current)

/-- `calculate_historical_priority` (touring.py lines 243-261): always the
neutral multiplier `1.0`. -/
def calculate_historical_priority (_ride_name : String) (_current_hour : Int)
    (_historical_averages : List (String × ℚ)) : ℚ :=
  1

/-- Does `needle` occur at the start of `hay`? (helper for Python's
`must in ride_name_lower` substring test.) -/
def char_starts_with : List Char → List Char → Bool
  | [], _ => true
  | _ :: _, [] => false
  | a :: as, b :: bs => a == b && char_starts_with as bs

/-- Does `needle` occur as a contiguous substring of `hay`? (Python's
`needle in hay` on strings.) -/
def char_has_sub (needle : List Char) : List Char → Bool
  | [] => needle.isEmpty
  | c :: rest => char_starts_with needle (c :: rest) || char_has_sub needle rest

/-- Python `needle in hay` for strings. -/
def str_has_sub (hay needle : String) : Bool :=
  char_has_sub needle.toList hay.toList

/-- Python's `str.lower()` (ASCII case folding, as in the ride names in
play), written over the character list so it evaluates by `decide`. -/
def str_lower (s : String) : String :=
  String.mk (s.data.map Char.toLower)

/-- One candidate matches the must-do list (touring.py lines 300-304):
some lowered term is a substring of the lowered ride name. -/
def ride_matches_must_do (must_do_lower : List String) (r : Ride) : Bool :=
  must_do_lower.any (fun m => str_has_sub (str_lower r.name) m)

/-- The candidate rides of `optimize_route` (touring.py lines 290-305):
open rides with a non-null wait time, narrowed to must-do matches when the
must-do filter selects at least one ride, otherwise falling back to the
full filtered list.  `must_do = []` models Python's falsy `None`/`[]`. -/
def candidates (rides : List Ride) (must_do : List String) : List Ride :=
  let available := rides.filter (fun r => r.is_open && r.wait_time.isSome)
  if must_do.isEmpty then available
  else
    let selected := available.filter (ride_matches_must_do (must_do.map str_lower))
    if selected.isEmpty then available else selected

/-- `ride.get("wait_time", 0)` on a ride dict (touring.py lines 325, 357). -/
def waitD (r : Ride) : Int :=
  r.wait_time.getD 0

/-- The priority score of touring.py line 332:
`wait_time * (0.7 + 0.3 * historical_priority)`, over `ℚ`. -/
def score (current_hour : Int) (historical_averages : List (String × ℚ)) (r : Ride) : ℚ :=
  (waitD r : ℚ) * (7 / 10 + 3 / 10 * calculate_historical_priority r.name current_hour historical_averages)

/-- The keys of `rides_by_land` in insertion order (touring.py lines
318-333): lands in order of first occurrence among the candidates. -/
def group_lands (rides : List Ride) : List String :=
  rides.foldl (fun acc r => if acc.contains r.land then acc else acc ++ [r.land]) []

/-- The sort key of touring.py line 337, `x["priority_score"]` (every
grouped ride has the key; `getD 0` totalises the lookup). -/
def rkey (r : Ride) : ℚ :=
  r.priority_score.getD 0

/-- Stable insertion into a list sorted by `priority_score` ascending. -/
def insert_by_score (x : Ride) : List Ride → List Ride
  | [] => [x]
  | y :: ys =>
    if rkey x ≤ rkey y then x :: y :: ys
    else y :: insert_by_score x ys

/-- `rides_by_land[land].sort(key=lambda x: x["priority_score"])` (touring.py
lines 336-337): a stable ascending sort by priority score (insertion sort;
stable sorts by the same key agree, so this coincides with CPython's
Timsort output). -/
def sort_by_score : List Ride → List Ride
  | [] => []
  | x :: xs => insert_by_score x (sort_by_score xs)

/-- One emitted step of the route (touring.py lines 365-371). -/
structure RouteItem where
  name : String
  land : String
  wait_time : Int
  walk_from_previous : Int
  cumulative_time : Int
deriving DecidableEq, Repr

/-- The dict returned by `optimize_route` (touring.py lines 307-315 and
379-387).  `error` is `none` when the key is absent; the failure dict's
missing `ride_count`/`lands_visited` keys are carried as `0`. -/
structure RouteResult where
  success : Bool
  error : Option String := none
  route : List RouteItem := []
  total_wait_time : Int := 0
  total_walk_time : Int := 0
  total_time : Int := 0
  ride_count : Nat := 0
  lands_visited : Nat := 0
deriving DecidableEq, Repr

/-- The running state of the assembly loop (touring.py lines 343-346).
`current_land = none` models Python's `None`. -/
structure BuildState where
  route : List RouteItem
  total_wait_time : Int
  total_walk_time : Int
  current_land : Option String
deriving DecidableEq, Repr

/-- Python truthiness of the `current_land` variable (`None` and `""` are
falsy), as tested on touring.py lines 353 and 369. -/
def truthy_land : Option String → Bool
  | none => false
  | some s => !(s == "")

/-- `if max_total_time and current_total > max_total_time` (touring.py
lines 362 and 376): `None` and `0` are falsy, so a zero budget disables
the check. -/
def exceeds (max_total_time : Option Int) (t : Int) : Bool :=
  match max_total_time with
  | none => false
  | some m => !(m == 0) && decide (t > m)

/-- The walk time added when processing one ride (touring.py lines
353-355): nonzero only when a truthy `current_land` differs from `land`. -/
def walk_added (park_id : Int) (cl : Option String) (land : String) : Int :=
  match cl with
  | none => 0
  | some c => if truthy_land (some c) && !(c == land) then get_walk_time park_id c land else 0

/-- The route item appended for one ride (touring.py lines 365-371). -/
def step_item (park_id : Int) (st : BuildState) (land : String) (r : Ride) : RouteItem :=
  { name := r.name
    land := land
    wait_time := waitD r
    walk_from_previous :=
      if truthy_land st.current_land then get_walk_time park_id (st.current_land.getD "") land
      else 0
    cumulative_time :=
      (st.total_wait_time + waitD r) + (st.total_walk_time + walk_added park_id st.current_land land) }

/-- The state after appending one ride (touring.py lines 354-373). -/
def step_state (park_id : Int) (st : BuildState) (land : String) (r : Ride) : BuildState :=
  { route := st.route ++ [step_item park_id st land r]
    total_wait_time := st.total_wait_time + waitD r
    total_walk_time := st.total_walk_time + walk_added park_id st.current_land land
    current_land := some land }

/-- The inner per-ride loop of `optimize_route` (touring.py lines 351-373)
over one land's sorted ride list, threading the running state.  The
running wait and walk totals are updated *before* the budget test, so a
ride that trips the budget still contributes to the totals while being
dropped from the route. -/
def emit_rides (park_id : Int) (max_total_time : Option Int) (land : String) :
    List Ride → BuildState → BuildState
  | [], st => st
  | r :: rs, st =>
    let total_walk := st.total_walk_time + walk_added park_id st.current_land land
    let total_wait := st.total_wait_time + waitD r
    if exceeds max_total_time (total_wait + total_walk) then
      { st with total_wait_time := total_wait, total_walk_time := total_walk }
    else
      emit_rides park_id max_total_time land rs (step_state park_id st land r)

/-- The outer per-land loop of `optimize_route` (touring.py lines 348-377),
including the land-level budget re-check that ends the route early. -/
def emit_lands (park_id : Int) (max_total_time : Option Int)
    (by_land : String → List Ride) : List String → BuildState → BuildState
  | [], st => st
  | land :: rest, st =>
    let st' := emit_rides park_id max_total_time land (by_land land) st
    if exceeds max_total_time (st'.total_wait_time + st'.total_walk_time) then st'
    else emit_lands park_id max_total_time by_land rest st'

/-- The candidates with their `priority_score` key written (touring.py
lines 319-333 set `ride["priority_score"]` on every grouped ride). -/
def scored_candidates (rides : List Ride) (must_do : List String)
    (historical_averages : List (String × ℚ)) (current_hour : Int) : List Ride :=
  (candidates rides must_do).map
    (fun r => { r with priority_score := some (score current_hour historical_averages r) })

/-- `optimize_route` (touring.py lines 264-387).  `current_hour` stands for
`datetime.now().hour`; `set_order` is the (unspecified) CPython iteration
order of `set(rides_by_land.keys())` — a faithful run supplies a
permutation of `group_lands` of the candidates.  `must_do = []` models a
falsy `must_do`. -/
def optimize_route (park_id : Int) (rides : List Ride) (must_do : List String)
    (historical_averages : List (String × ℚ)) (max_total_time : Option Int)
    (current_hour : Int) (set_order : List String) : RouteResult :=
  let avail := candidates rides must_do
  if avail.isEmpty then
    { success := false
      error := some "No matching rides available"
      route := []
      total_wait_time := 0
      total_walk_time := 0
      total_time := 0 }
  else
    let scored := scored_candidates rides must_do historical_averages current_hour
    let by_land := fun land => sort_by_score (scored.filter (fun r => r.land == land))
    let land_order := get_land_order park_id set_order
    let st := emit_lands park_id max_total_time by_land land_order
      { route := [], total_wait_time := 0, total_walk_time := 0, current_land := none }
    { success := true
      error := none
      route := st.route
      total_wait_time := st.total_wait_time
      total_walk_time := st.total_walk_time
      total_time := st.total_wait_time + st.total_walk_time
      ride_count := st.route.length
      lands_visited := (st.route.map (fun i => i.land)).dedup.length }

/-- The caller's ride list after `optimize_route` returns: touring.py line
332 writes `ride["priority_score"]` into every candidate dict in place (dict
identity modelled by value equality); no mutation happens on the
no-candidate early return, and no other field or the list structure is
touched. -/
def optimize_route_rides_after (rides : List Ride) (must_do : List String)
    (historical_averages : List (String × ℚ)) (current_hour : Int) : List Ride :=
  let avail := candidates rides must_do
  if avail.isEmpty then rides
  else
    rides.map (fun r =>
      if avail.contains r then
        { r with priority_score := some (score current_hour historical_averages r) }
      else r)

/-- Python's `round` to an integer: round-half-to-even, computed on the
reduced fraction (`f` is the floor; `twice_rem`/`den` compares the
fractional part against 1/2). -/
def round_half_even (q : ℚ) : ℤ :=
  let f := q.num.fdiv (q.den : ℤ)
  let twice_rem := 2 * (q.num - f * (q.den : ℤ))
  if twice_rem < (q.den : ℤ) then f
  else if twice_rem > (q.den : ℤ) then f + 1
  else if f % 2 = 0 then f else f + 1

/-- Python's `round(x, 1)`, over `ℚ`. -/
def round1 (q : ℚ) : ℚ :=
  (round_half_even (q * 10) : ℚ) / 10

/-- The comparison dict of `compare_to_average` (historical.py lines
328-355); `percent_diff = none` models the `None` value. -/
structure Comparison where
  difference : ℚ
  percent_diff : Option ℚ
  status : String
deriving DecidableEq, Repr

/-- `compare_to_average(current_wait, average)` (historical.py lines
328-355), with float arithmetic modelled over `ℚ`. -/
def compare_to_average (current_wait : Int) (average : ℚ) : Comparison :=
  if average = 0 then
    { difference := (current_wait : ℚ), percent_diff := none, status := "no_baseline" }
  else
    let difference : ℚ := (current_wait : ℚ) - average
    let percent_diff := round1 (difference / average * 100)
    let status :=
      if percent_diff ≤ -20 then "much_lower"
      else if percent_diff ≤ -10 then "lower"
      else if percent_diff ≤ 10 then "typical"
      else if percent_diff ≤ 20 then "higher"
      else "much_higher"
    { difference := round1 difference, percent_diff := some percent_diff, status := status }

/-- Modelled from the spec (§4.5): the bucket a given `percent_diff` falls
in, with boundaries inclusive toward the lower bucket.  Used to compare the
source's threshold chain against the spec's words. -/
def spec_bucket (percent_diff : ℚ) : String :=
  if percent_diff ≤ -20 then "much_lower"
  else if percent_diff ≤ -10 then "lower"
  else if percent_diff ≤ 10 then "typical"
  else if percent_diff ≤ 20 then "higher"
  else "much_higher"

/-- The observable identity of an emitted route item: name, land, wait. -/
def proj_item (i : RouteItem) : String × String × Int :=
  (i.name, i.land, i.wait_time)

/-- The route item identity a ride emitted in `land` produces. -/
def proj_ride (land : String) (r : Ride) : String × String × Int :=
  (r.name, land, waitD r)

/-- The route item identity a candidate ride produces (emitted in its own
land). -/
def key_ride (r : Ride) : String × String × Int :=
  (r.name, r.land, waitD r)

/-- A ride with its scratch `priority_score` key removed; used to state
that `optimize_route` changes nothing else about the caller's rides. -/
def strip_score (r : Ride) : Ride :=
  { r with priority_score := none }

/-- Sum of the `wait_time` fields of a route. -/
def wsum (l : List RouteItem) : Int :=
  (l.map RouteItem.wait_time).sum

/-- The "Space Mountain" ride record of the spec's end-to-end example
(§8): Tomorrowland, open, wait 45. -/
def spaceMountain : Ride :=
  { name := "Space Mountain", land := "Tomorrowland", is_open := true, wait_time := some 45 }

/-- The "Jungle Cruise" ride record of the spec's end-to-end example
(§8): Adventureland, open, wait 10. -/
def jungleCruise : Ride :=
  { name := "Jungle Cruise", land := "Adventureland", is_open := true, wait_time := some 10 }

/-- A closed ride, for the all-closed no-candidates scenario. -/
def closedRide : Ride :=
  { name := "Space Mountain", land := "Tomorrowland", is_open := false, wait_time := some 45 }

/-- The failure record of touring.py lines 307-315 (missing keys carried
as the structure defaults `0`). -/
def no_match_result : RouteResult :=
  { success := false
    error := some "No matching rides available"
    route := []
    total_wait_time := 0
    total_walk_time := 0
    total_time := 0 }

/-- The loop state after the whole assembly (touring.py lines 343-377). -/
def final_state (park_id : Int) (rides : List Ride) (must_do : List String)
    (hist : List (String × ℚ)) (mtt : Option Int) (hr : Int) (so : List String) : BuildState :=
  emit_lands park_id mtt
    (fun land =>
      sort_by_score ((scored_candidates rides must_do hist hr).filter (fun r => r.land == land)))
    (get_land_order park_id so)
    { route := [], total_wait_time := 0, total_walk_time := 0, current_land := none }

/-- A walk-time table never stores an (ordered) pair together with its
reversal at a different value; this is what makes the two-orientation
lookup of `get_walk_time` symmetric.  Checked by `decide` on each concrete
`PARK_LAYOUTS` table. -/
abbrev no_rev_dup (wt : List ((String × String) × Int)) : Prop :=
  ∀ e ∈ wt, ∀ e' ∈ wt, e'.1.1 = e.1.2 → e'.1.2 = e.1.1 → e'.2 = e.2

/-! ### Generic facts about the stable sort -/

theorem insert_by_score_perm (x : Ride) (l : List Ride) :
    (insert_by_score x l).Perm (x :: l) := by
  induction l with
  | nil => exact List.Perm.refl _
  | cons y ys ih =>
    rw [insert_by_score]
    split
    · exact List.Perm.refl _
    · exact (ih.cons y).trans (List.Perm.swap x y ys)

theorem sort_by_score_perm (l : List Ride) : (sort_by_score l).Perm l := by
  induction l with
  | nil => exact List.Perm.refl _
  | cons x xs ih => exact (insert_by_score_perm x (sort_by_score xs)).trans (ih.cons x)

theorem insert_by_score_sorted (x : Ride) (l : List Ride)
    (h : l.Pairwise (fun a b => rkey a ≤ rkey b)) :
    (insert_by_score x l).Pairwise (fun a b => rkey a ≤ rkey b) := by
  induction l with
  | nil => simp [insert_by_score]
  | cons y ys ih =>
    rw [List.pairwise_cons] at h
    obtain ⟨hy, hys⟩ := h
    rw [insert_by_score]
    split
    · rename_i hxy
      refine List.Pairwise.cons ?_ (List.Pairwise.cons hy hys)
      intro z hz
      rcases List.mem_cons.mp hz with rfl | hz'
      · exact hxy
      · exact le_trans hxy (hy z hz')
    · rename_i hxy
      refine List.Pairwise.cons ?_ (ih hys)
      intro z hz
      have hz' := (insert_by_score_perm x ys).mem_iff.mp hz
      rcases List.mem_cons.mp hz' with rfl | hz''
      · exact le_of_lt (lt_of_not_le hxy)
      · exact hy z hz''

theorem sort_by_score_sorted (l : List Ride) :
    (sort_by_score l).Pairwise (fun a b => rkey a ≤ rkey b) := by
  induction l with
  | nil => simp [sort_by_score]
  | cons x xs ih => exact insert_by_score_sorted x (sort_by_score xs) ih

/-! ### Accounting invariants of the assembly loops -/

theorem exceeds_none (t : Int) : exceeds none t = false := rfl

theorem emit_rides_wait_sum (park_id : Int) (land : String) (rs : List Ride)
    (st : BuildState) :
    (emit_rides park_id none land rs st).total_wait_time + wsum st.route
      = st.total_wait_time + wsum (emit_rides park_id none land rs st).route := by
  induction rs generalizing st with
  | nil => rw [emit_rides]
  | cons r rs ih =>
    rw [emit_rides]
    simp only [exceeds_none, Bool.false_eq_true, if_false]
    have hw : wsum (step_state park_id st land r).route = wsum st.route + waitD r := by
      simp [step_state, wsum, step_item]
    have ht : (step_state park_id st land r).total_wait_time
        = st.total_wait_time + waitD r := rfl
    have h := ih (step_state park_id st land r)
    omega

theorem emit_lands_wait_sum (park_id : Int) (by_land : String → List Ride)
    (ls : List String) (st : BuildState) :
    (emit_lands park_id none by_land ls st).total_wait_time + wsum st.route
      = st.total_wait_time + wsum (emit_lands park_id none by_land ls st).route := by
  induction ls generalizing st with
  | nil => rw [emit_lands]
  | cons land rest ih =>
    rw [emit_lands]
    simp only [exceeds_none, Bool.false_eq_true, if_false]
    have h1 := emit_rides_wait_sum park_id land (by_land land) st
    have h2 := ih (emit_rides park_id none land (by_land land) st)
    omega

/-! ### Route structure of the assembly loops -/

theorem step_item_proj (park_id : Int) (st : BuildState) (land : String) (r : Ride) :
    proj_item (step_item park_id st land r) = proj_ride land r := rfl

theorem emit_rides_route_none (park_id : Int) (land : String) (rs : List Ride)
    (st : BuildState) :
    (emit_rides park_id none land rs st).route.map proj_item
      = st.route.map proj_item ++ rs.map (proj_ride land) := by
  induction rs generalizing st with
  | nil => rw [emit_rides]; simp
  | cons r rs ih =>
    rw [emit_rides]
    simp only [exceeds_none, Bool.false_eq_true, if_false]
    rw [ih (step_state park_id st land r)]
    simp [step_state, step_item_proj]

theorem emit_lands_route_none (park_id : Int) (by_land : String → List Ride)
    (ls : List String) (st : BuildState) :
    (emit_lands park_id none by_land ls st).route.map proj_item
      = st.route.map proj_item
        ++ (ls.map (fun l => (by_land l).map (proj_ride l))).flatten := by
  induction ls generalizing st with
  | nil => rw [emit_lands]; simp
  | cons land rest ih =>
    rw [emit_lands]
    simp only [exceeds_none, Bool.false_eq_true, if_false]
    rw [ih (emit_rides park_id none land (by_land land) st)]
    rw [emit_rides_route_none]
    simp

theorem emit_rides_route_take (park_id : Int) (mtt : Option Int) (land : String)
    (rs : List Ride) (st : BuildState) :
    ∃ n, (emit_rides park_id mtt land rs st).route.map proj_item
        = st.route.map proj_item ++ (rs.take n).map (proj_ride land) := by
  induction rs generalizing st with
  | nil => exact ⟨0, by rw [emit_rides]; simp⟩
  | cons r rs ih =>
    rw [emit_rides]
    split
    · exact ⟨0, by simp⟩
    · obtain ⟨n, hn⟩ := ih (step_state park_id st land r)
      refine ⟨n + 1, ?_⟩
      rw [hn]
      simp [step_state, step_item_proj]

theorem emit_lands_route_blocks (park_id : Int) (mtt : Option Int)
    (by_land : String → List Ride) (ls : List String) (st : BuildState) :
    ∃ L : List (String × Nat),
      L.map Prod.fst = ls.take L.length
      ∧ (emit_lands park_id mtt by_land ls st).route.map proj_item
          = st.route.map proj_item
            ++ (L.map (fun q => ((by_land q.1).take q.2).map (proj_ride q.1))).flatten := by
  induction ls generalizing st with
  | nil => exact ⟨[], rfl, by rw [emit_lands]; simp⟩
  | cons land rest ih =>
    rw [emit_lands]
    obtain ⟨n, hn⟩ := emit_rides_route_take park_id mtt land (by_land land) st
    split
    · exact ⟨[(land, n)], rfl, by simpa using hn⟩
    · obtain ⟨L, hL1, hL2⟩ :=
        ih (emit_rides park_id mtt land (by_land land) st)
      refine ⟨(land, n) :: L, ?_, ?_⟩
      · simpa using hL1
      · rw [hL2, hn]
        simp

/-! ### Budget invariant of the assembly loops -/

theorem emit_rides_cumulative (park_id : Int) (m : Int) (hm : m ≠ 0) (land : String)
    (rs : List Ride) (st : BuildState)
    (h : ∀ i ∈ st.route, i.cumulative_time ≤ m) :
    ∀ i ∈ (emit_rides park_id (some m) land rs st).route, i.cumulative_time ≤ m := by
  induction rs generalizing st with
  | nil => rw [emit_rides]; exact h
  | cons r rs ih =>
    rw [emit_rides]
    split
    · exact h
    · rename_i hexc
      apply ih
      intro i hi
      rcases List.mem_append.mp ((by simpa [step_state] using hi :
          i ∈ st.route ++ [step_item park_id st land r])) with hi' | hi'
      · exact h i hi'
      · have : i = step_item park_id st land r := by simpa using hi'
        subst this
        simp [exceeds, hm] at hexc
        simp only [step_item]
        omega

theorem emit_lands_cumulative (park_id : Int) (m : Int) (hm : m ≠ 0)
    (by_land : String → List Ride) (ls : List String) (st : BuildState)
    (h : ∀ i ∈ st.route, i.cumulative_time ≤ m) :
    ∀ i ∈ (emit_lands park_id (some m) by_land ls st).route, i.cumulative_time ≤ m := by
  induction ls generalizing st with
  | nil => rw [emit_lands]; exact h
  | cons land rest ih =>
    rw [emit_lands]
    have h1 := emit_rides_cumulative park_id m hm land (by_land land) st h
    split
    · exact h1
    · exact ih _ h1

/-! ### The land sequencer permutes its input -/

theorem foldl_min_mem (park_id : Int) (base : String) (ls : List String) (b : String) :
    ls.foldl
      (fun best x =>
        if get_walk_time park_id base x < get_walk_time park_id base best then x else best)
      b ∈ b :: ls := by
  induction ls generalizing b with
  | nil => simp
  | cons x xs ih =>
    simp only [List.foldl_cons]
    have h := ih (if get_walk_time park_id base x < get_walk_time park_id base b then x else b)
    rcases List.mem_cons.mp h with h' | h'
    · rw [h']
      split
      · simp
      · simp
    · simp [h']

theorem min_by_walk_mem (park_id : Int) (base : String) (l : List String) (x : String)
    (h : min_by_walk park_id base l = some x) : x ∈ l := by
  match l, h with
  | a :: as, h =>
    rw [min_by_walk] at h
    have := foldl_min_mem park_id base as a
    rw [Option.some_inj.mp h] at this
    exact this

theorem greedy_order_perm (park_id : Int) (n : Nat) :
    ∀ (rem : List String), rem.length = n → ∀ cur,
      (greedy_order park_id n cur rem).Perm rem := by
  induction n with
  | zero =>
    intro rem h cur
    rw [List.length_eq_zero] at h
    subst h
    exact List.Perm.refl _
  | succ n ih =>
    intro rem h cur
    match rem, h with
    | x :: xs, h =>
      rw [greedy_order]
      cases hmin : min_by_walk park_id cur (x :: xs) with
      | none => rw [min_by_walk] at hmin; exact absurd hmin (by simp)
      | some nxt =>
        have hmem : nxt ∈ x :: xs := min_by_walk_mem park_id cur _ nxt hmin
        have hlen : ((x :: xs).erase nxt).length = n := by
          rw [List.length_erase_of_mem hmem]
          simpa using h
        have hrec := ih ((x :: xs).erase nxt) hlen nxt
        exact (hrec.cons nxt).trans (List.perm_cons_erase hmem).symm

theorem get_land_order_perm (park_id : Int) (so : List String) :
    (get_land_order park_id so).Perm so := by
  rw [get_land_order]
  cases hL : park_layout park_id with
  | none => exact List.Perm.refl _
  | some layout =>
    by_cases hso : so.isEmpty
    · rw [List.isEmpty_iff] at hso
      subst hso
      simp
    · simp only [hso, Bool.false_eq_true, if_false]
      have hcur :
          (if so.contains layout.entry_land then layout.entry_land
            else (min_by_walk park_id layout.entry_land so).getD layout.entry_land) ∈ so := by
        split
        · rename_i hc
          exact List.mem_of_elem_eq_true hc
        · match so, hso with
          | a :: as, _ =>
            have : min_by_walk park_id layout.entry_land (a :: as)
                = some ((as).foldl _ a) := rfl
            rw [this]
            exact foldl_min_mem park_id layout.entry_land as a
      set cur := (if so.contains layout.entry_land then layout.entry_land
            else (min_by_walk park_id layout.entry_land so).getD layout.entry_land) with hcurdef
      have hrec := greedy_order_perm park_id (so.erase cur).length (so.erase cur) rfl cur
      exact (hrec.cons cur).trans (List.perm_cons_erase hcur).symm

/-! ### First-occurrence grouping keys -/

theorem group_lands_step_nodup (l : List Ride) :
    ∀ acc : List String, acc.Nodup →
      (l.foldl (fun acc r => if acc.contains r.land then acc else acc ++ [r.land]) acc).Nodup := by
  induction l with
  | nil => intro acc h; simpa using h
  | cons r rs ih =>
    intro acc h
    simp only [List.foldl_cons]
    apply ih
    split
    · exact h
    · rename_i hc
      refine List.Nodup.append h (List.nodup_singleton _) ?_
      intro a ha hb
      rw [List.mem_singleton] at hb
      subst hb
      exact hc (List.elem_eq_true_of_mem ha)

theorem group_lands_nodup (l : List Ride) : (group_lands l).Nodup :=
  group_lands_step_nodup l [] List.nodup_nil

theorem group_lands_step_mono (l : List Ride) :
    ∀ acc : List String, ∀ x ∈ acc,
      x ∈ l.foldl (fun acc r => if acc.contains r.land then acc else acc ++ [r.land]) acc := by
  induction l with
  | nil => intro acc x h; simpa using h
  | cons r rs ih =>
    intro acc x h
    simp only [List.foldl_cons]
    apply ih
    split
    · exact h
    · exact List.mem_append_left _ h

theorem group_lands_covers (l : List Ride) :
    ∀ acc : List String, ∀ r ∈ l,
      r.land ∈ l.foldl (fun acc r => if acc.contains r.land then acc else acc ++ [r.land]) acc := by
  induction l with
  | nil => intro acc r h; simp at h
  | cons s rs ih =>
    intro acc r h
    rcases List.mem_cons.mp h with rfl | h'
    · simp only [List.foldl_cons]
      apply group_lands_step_mono
      split
      · rename_i hc
        exact List.mem_of_elem_eq_true hc
      · exact List.mem_append_right _ (List.mem_singleton_self _)
    · exact ih _ r h'

theorem mem_group_lands (l : List Ride) (r : Ride) (h : r ∈ l) :
    r.land ∈ group_lands l :=
  group_lands_covers l [] r h

/-- Lands are unchanged by the score-writing map, so the grouping keys of
the scored candidates are those of the candidates. -/
theorem group_lands_map_score (l : List Ride) (f : Ride → Ride)
    (hf : ∀ r, (f r).land = r.land) : group_lands (l.map f) = group_lands l := by
  unfold group_lands
  rw [List.foldl_map]
  congr 1
  funext acc r
  rw [hf]

/-! ### Partitioning a list by its grouping keys -/

theorem flatten_filter_perm (ks : List String) :
    ∀ l : List Ride, ks.Nodup → (∀ r ∈ l, r.land ∈ ks) →
      ((ks.map (fun k => l.filter (fun r => r.land == k))).flatten).Perm l := by
  induction ks with
  | nil =>
    intro l _ hcov
    have : l = [] := by
      rw [List.eq_nil_iff_forall_not_mem]
      intro r hr
      simpa using hcov r hr
    subst this
    simp
  | cons k ks ih =>
    intro l hnd hcov
    rw [List.nodup_cons] at hnd
    obtain ⟨hk, hnd'⟩ := hnd
    simp only [List.map_cons, List.flatten_cons]
    have hrw : ks.map (fun j => l.filter (fun r => r.land == j))
        = ks.map (fun j => (l.filter (fun r => !(r.land == k))).filter (fun r => r.land == j)) := by
      apply List.map_congr_left
      intro j hj
      rw [List.filter_filter]
      apply List.filter_congr
      intro r _
      cases hrl : (r.land == j) with
      | false => simp
      | true =>
        have : r.land = j := by simpa using hrl
        have hne : ¬ (r.land == k) = true := by
          simp only [beq_iff_eq, this]
          intro hjk
          exact hk (hjk ▸ hj)
        simp [hne]
    rw [hrw]
    have hcov' : ∀ r ∈ l.filter (fun r => !(r.land == k)), r.land ∈ ks := by
      intro r hr
      rw [List.mem_filter] at hr
      obtain ⟨hr1, hr2⟩ := hr
      rcases List.mem_cons.mp (hcov r hr1) with heq | h
      · exact absurd (by simpa using heq) (by simpa using hr2)
      · exact h
    have hperm := ih (l.filter (fun r => !(r.land == k))) hnd' hcov'
    exact ((List.Perm.append_left _ hperm).trans (List.filter_append_perm _ l))

/-- Replacing each group by its sorted version permutes the flattening. -/
theorem flatten_sort_perm (f : String → List Ride) (g : String → Ride → String × String × Int)
    (ls : List String) :
    ((ls.map (fun k => (sort_by_score (f k)).map (g k))).flatten).Perm
      ((ls.map (fun k => (f k).map (g k))).flatten) := by
  induction ls with
  | nil => exact List.Perm.refl _
  | cons k ks ih =>
    simp only [List.map_cons, List.flatten_cons]
    exact List.Perm.append ((sort_by_score_perm (f k)).map (g k)) ih

/-! ### Unfolding `optimize_route` -/

theorem optimize_route_empty (park_id : Int) (rides : List Ride) (must_do : List String)
    (hist : List (String × ℚ)) (mtt : Option Int) (hr : Int) (so : List String)
    (h : candidates rides must_do = []) :
    optimize_route park_id rides must_do hist mtt hr so = no_match_result := by
  rw [optimize_route, no_match_result]
  simp [h]

theorem optimize_route_state (park_id : Int) (rides : List Ride) (must_do : List String)
    (hist : List (String × ℚ)) (mtt : Option Int) (hr : Int) (so : List String)
    (h : ¬ candidates rides must_do = []) :
    optimize_route park_id rides must_do hist mtt hr so =
      { success := true
        error := none
        route := (final_state park_id rides must_do hist mtt hr so).route
        total_wait_time := (final_state park_id rides must_do hist mtt hr so).total_wait_time
        total_walk_time := (final_state park_id rides must_do hist mtt hr so).total_walk_time
        total_time := (final_state park_id rides must_do hist mtt hr so).total_wait_time
          + (final_state park_id rides must_do hist mtt hr so).total_walk_time
        ride_count := (final_state park_id rides must_do hist mtt hr so).route.length
        lands_visited :=
          ((final_state park_id rides must_do hist mtt hr so).route.map
            (fun i => i.land)).dedup.length } := by
  rw [optimize_route]
  simp [final_state, h]

/-! ### Symmetry of the walk-time lookup -/

theorem lookup_mem {β : Type} (wt : List ((String × String) × β)) (k : String × String)
    (v : β) (h : wt.lookup k = some v) : (k, v) ∈ wt := by
  rw [List.lookup_eq_some_iff] at h
  obtain ⟨l1, l2, rfl, -⟩ := h
  simp

theorem walk_lookup_symm (wt : List ((String × String) × Int)) (hnd : no_rev_dup wt)
    (a b : String) :
    (match wt.lookup (a, b) with
     | some t => t
     | none =>
       match wt.lookup (b, a) with
       | some t => t
       | none => 7)
    = (match wt.lookup (b, a) with
       | some t => t
       | none =>
         match wt.lookup (a, b) with
         | some t => t
         | none => 7) := by
  cases h1 : wt.lookup (a, b) with
  | none => cases h2 : wt.lookup (b, a) <;> simp
  | some v =>
    cases h2 : wt.lookup (b, a) with
    | none => simp
    | some w =>
      simp only
      exact (hnd ((a, b), v) (lookup_mem wt _ v h1) ((b, a), w) (lookup_mem wt _ w h2)
        rfl rfl).symm

theorem layouts_no_rev_dup (park_id : Int) (L : Layout)
    (h : park_layout park_id = some L) : no_rev_dup L.walk_times := by
  rw [park_layout] at h
  split_ifs at h <;> simp only [Option.some_inj] at h
  all_goals subst h; decide

theorem get_walk_time_symm (p : Int) (a b : String) :
    get_walk_time p a b = get_walk_time p b a := by
  by_cases hab : a = b
  · subst hab; rfl
  · rw [get_walk_time, get_walk_time, if_neg hab, if_neg (Ne.symm hab)]
    cases hL : park_layout p with
    | none => rfl
    | some L => exact walk_lookup_symm L.walk_times (layouts_no_rev_dup p L hL) a b

/-! ### Candidate selection -/

theorem candidates_no_match (rides : List Ride) (must_do : List String)
    (h : ∀ r ∈ rides, r.is_open = true →
      ride_matches_must_do (must_do.map str_lower) r = false) :
    candidates rides must_do = candidates rides [] := by
  simp only [candidates, List.isEmpty_nil, if_true]
  by_cases hmd : must_do.isEmpty
  · simp [hmd]
  · simp only [hmd, Bool.false_eq_true, if_false]
    have hsel : (rides.filter fun r => r.is_open && r.wait_time.isSome).filter
        (ride_matches_must_do (must_do.map str_lower)) = [] := by
      rw [List.filter_eq_nil_iff]
      intro r hr
      rw [List.mem_filter] at hr
      obtain ⟨hr1, hr2⟩ := hr
      rw [Bool.and_eq_true] at hr2
      simp [h r hr1 hr2.1]
    simp [hsel]

/-! ## Claims -/

/-- C1 (amended): for every call, `total_time = total_wait_time +
total_walk_time`; and whenever `max_total_time` is `None`, `total_wait_time`
equals the sum of `wait_time` over the emitted route items.  (Under budget
truncation the dropped ride's wait is still counted, so the sum clause does
not extend to that case — see the counterexample.) -/
theorem c1_total_accounting (park_id : Int) (rides : List Ride) (must_do : List String)
    (hist : List (String × ℚ)) (mtt : Option Int) (hr : Int) (so : List String) :
    (optimize_route park_id rides must_do hist mtt hr so).total_time
      = (optimize_route park_id rides must_do hist mtt hr so).total_wait_time
        + (optimize_route park_id rides must_do hist mtt hr so).total_walk_time
    ∧ wsum (optimize_route park_id rides must_do hist none hr so).route
        = (optimize_route park_id rides must_do hist none hr so).total_wait_time := by
  constructor
  · by_cases h : candidates rides must_do = []
    · rw [optimize_route_empty park_id rides must_do hist mtt hr so h]
      rfl
    · rw [optimize_route_state park_id rides must_do hist mtt hr so h]
  · by_cases h : candidates rides must_do = []
    · rw [optimize_route_empty park_id rides must_do hist none hr so h]
      rfl
    · rw [optimize_route_state park_id rides must_do hist none hr so h]
      have hws := emit_lands_wait_sum park_id
        (fun land => sort_by_score
          ((scored_candidates rides must_do hist hr).filter (fun r => r.land == land)))
        (get_land_order park_id so)
        { route := [], total_wait_time := 0, total_walk_time := 0, current_land := none }
      simp only [final_state]
      simp only [wsum, List.map_nil, List.sum_nil] at hws ⊢
      omega

/-- C1 counterexample: with `max_total_time = 5` the only ride trips the
budget, its wait (45) is added to `total_wait_time` but the ride is not
emitted, so `total_wait_time` is not the sum of the emitted waits. -/
theorem c1_truncation_counterexample :
    wsum (optimize_route 6 [spaceMountain] [] [] (some 5) 12 ["Tomorrowland"]).route
      ≠ (optimize_route 6 [spaceMountain] [] [] (some 5) 12 ["Tomorrowland"]).total_wait_time := by
  decide

/-- C2 (amended): `optimize_route` does mutate its input — it writes the
scratch `priority_score` key into every candidate ride dict — but nothing
else: modulo that key the caller's ride list is unchanged (same length,
order, and all other fields). -/
theorem c2_mutation_scope (rides : List Ride) (must_do : List String)
    (hist : List (String × ℚ)) (hr : Int) :
    (optimize_route_rides_after rides must_do hist hr).map strip_score
      = rides.map strip_score := by
  simp only [optimize_route_rides_after]
  split
  · rfl
  · rw [List.map_map]
    apply List.map_congr_left
    intro r _
    simp only [Function.comp_apply]
    by_cases hc : r ∈ candidates rides must_do
    · simp [hc, strip_score]
    · simp [hc, strip_score]

/-- C2 counterexample: after a call on a single open ride the caller's ride
dict has gained a `priority_score` key, so `optimize_route` is not pure in
the claimed sense. -/
theorem c2_mutation_counterexample :
    optimize_route_rides_after [spaceMountain] [] [] 12 ≠ [spaceMountain] := by
  decide

/-- C3 counterexample: `["Tomorrowland", "Adventureland"]` is a legitimate
iteration order of the CPython set `{"Tomorrowland", "Adventureland"}`
(string-set order is hash-randomised), and under it the route visits
Tomorrowland first: both lands are 3 minutes from the entry land in the
Magic Kingdom table, so the claimed closer-to-entry selection is a tie
broken by the unspecified set order. -/
theorem c3_order_counterexample :
    (optimize_route 6 [spaceMountain, jungleCruise] [] [] none 12
        ["Tomorrowland", "Adventureland"]).route.map RouteItem.land
      ≠ ["Adventureland", "Tomorrowland"] := by
  decide

/-- C3 (amended): for either iteration order of the two-land set the result
matches the spec's totals — `total_wait_time = 55`, `total_walk_time` equal
to the single Adventureland–Tomorrowland hop of the walk-time table (10) —
and the route covers exactly the two lands; which land comes first is
decided by the unspecified set iteration order (both are 3 minutes from the
entry land). -/
theorem c3_example_totals (so : List String)
    (hso : so = ["Tomorrowland", "Adventureland"]
      ∨ so = ["Adventureland", "Tomorrowland"]) :
    (optimize_route 6 [spaceMountain, jungleCruise] [] [] none 12 so).total_wait_time = 55
    ∧ (optimize_route 6 [spaceMountain, jungleCruise] [] [] none 12 so).total_walk_time
        = get_walk_time 6 "Adventureland" "Tomorrowland"
    ∧ (optimize_route 6 [spaceMountain, jungleCruise] [] [] none 12 so).total_walk_time = 10
    ∧ ((optimize_route 6 [spaceMountain, jungleCruise] [] [] none 12 so).route.map
        RouteItem.land).Perm ["Adventureland", "Tomorrowland"] := by
  rcases hso with rfl | rfl
  · exact ⟨by decide, by decide, by decide, by decide⟩
  · exact ⟨by decide, by decide, by decide, by decide⟩

theorem c3_example_totals_witness :
    (optimize_route 6 [spaceMountain, jungleCruise] [] [] none 12
        ["Tomorrowland", "Adventureland"]).total_wait_time = 55 :=
  (c3_example_totals ["Tomorrowland", "Adventureland"] (Or.inl rfl)).1

/-- C5 (amended): when `max_total_time` is set to a nonzero value, every
emitted route item's `cumulative_time` is within the budget — an item whose
cumulative total exceeds it is never appended.  (A budget of exactly 0 is
falsy in Python and disables the check — see the counterexample.) -/
theorem c5_budget_cap (park_id : Int) (rides : List Ride) (must_do : List String)
    (hist : List (String × ℚ)) (hr : Int) (so : List String) (m : Int) (hm : m ≠ 0) :
    ∀ i ∈ (optimize_route park_id rides must_do hist (some m) hr so).route,
      i.cumulative_time ≤ m := by
  by_cases h : candidates rides must_do = []
  · rw [optimize_route_empty park_id rides must_do hist (some m) hr so h]
    intro i hi
    simp [no_match_result] at hi
  · rw [optimize_route_state park_id rides must_do hist (some m) hr so h]
    simp only [final_state]
    exact emit_lands_cumulative park_id m hm _ _ _ (by intro i hi; simp at hi)

theorem c5_budget_cap_witness :
    ({ name := "Space Mountain", land := "Tomorrowland", wait_time := 45,
        walk_from_previous := 0, cumulative_time := 45 } : RouteItem).cumulative_time ≤ 100 :=
  c5_budget_cap 6 [spaceMountain] [] [] 12 ["Tomorrowland"] 100 (by decide)
    { name := "Space Mountain", land := "Tomorrowland", wait_time := 45,
      walk_from_previous := 0, cumulative_time := 45 }
    (by decide)

/-- C5 counterexample: with `max_total_time = 0` (set, but falsy in
Python's `if max_total_time and ...`) a ride with cumulative time 45 > 0 is
still emitted. -/
theorem c5_zero_budget_counterexample :
    ¬ ∀ i ∈ (optimize_route 6 [spaceMountain] [] [] (some 0) 12 ["Tomorrowland"]).route,
      i.cumulative_time ≤ (0 : Int) := by
  decide

/-- C6: when a must-do list is given but no open ride's name contains any
of its terms (case-insensitively), `optimize_route` silently falls back to
the full filtered list and returns exactly the result of the call without
`must_do`. -/
theorem c6_must_do_fallback (park_id : Int) (rides : List Ride) (must_do : List String)
    (hist : List (String × ℚ)) (mtt : Option Int) (hr : Int) (so : List String)
    (h : ∀ r ∈ rides, r.is_open = true →
      ride_matches_must_do (must_do.map str_lower) r = false) :
    optimize_route park_id rides must_do hist mtt hr so
      = optimize_route park_id rides [] hist mtt hr so := by
  have hc := candidates_no_match rides must_do h
  simp only [optimize_route, scored_candidates]
  rw [hc]

theorem c6_must_do_fallback_witness :
    optimize_route 6 [spaceMountain, jungleCruise] ["frozen ever after"] [] none 12
        ["Tomorrowland", "Adventureland"]
      = optimize_route 6 [spaceMountain, jungleCruise] [] [] none 12
        ["Tomorrowland", "Adventureland"] :=
  c6_must_do_fallback 6 [spaceMountain, jungleCruise] ["frozen ever after"] [] none 12
    ["Tomorrowland", "Adventureland"] (by decide)

/-- C7: when no ride survives the open/non-null-wait filter (in particular
when every ride is closed), `optimize_route` returns the failure record —
`success = false`, error "No matching rides available", empty route and all
totals 0 — and, being a total function, raises nothing. -/
theorem c7_no_candidates (park_id : Int) (rides : List Ride) (must_do : List String)
    (hist : List (String × ℚ)) (mtt : Option Int) (hr : Int) (so : List String)
    (h : rides.filter (fun r => r.is_open && r.wait_time.isSome) = []) :
    optimize_route park_id rides must_do hist mtt hr so = no_match_result := by
  apply optimize_route_empty
  simp only [candidates, h]
  by_cases hmd : must_do.isEmpty
  · simp [hmd]
  · simp [hmd]

theorem c7_no_candidates_witness :
    optimize_route 6 [closedRide] [] [] none 12 [] = no_match_result :=
  c7_no_candidates 6 [closedRide] [] [] none 12 [] (by decide)

/-- C8: the walk-time lookup — 0 on a self-loop; 5 for a park without a
topology entry; the default 7 for a known park when the pair is missing in
both orientations; and full symmetry.  The function is total, so no error
is ever raised. -/
theorem c8_walk_time_contract (p : Int) (a b : String) :
    get_walk_time p a a = 0
    ∧ (park_layout p = none → a ≠ b → get_walk_time p a b = 5)
    ∧ (∀ L, park_layout p = some L → a ≠ b →
        L.walk_times.lookup (a, b) = none → L.walk_times.lookup (b, a) = none →
        get_walk_time p a b = 7)
    ∧ get_walk_time p a b = get_walk_time p b a := by
  refine ⟨by rw [get_walk_time]; simp, ?_, ?_, get_walk_time_symm p a b⟩
  · intro hL hab
    rw [get_walk_time, if_neg hab, hL]
  · intro L hL hab h1 h2
    rw [get_walk_time, if_neg hab, hL]
    simp only [h1, h2]

theorem c8_walk_time_contract_witness :
    get_walk_time 6 "Adventureland" "Adventureland" = 0
    ∧ get_walk_time 999 "Adventureland" "Tomorrowland" = 5
    ∧ get_walk_time 6 "Adventureland" "Castle Courtyard" = 7
    ∧ get_walk_time 6 "Adventureland" "Tomorrowland"
        = get_walk_time 6 "Tomorrowland" "Adventureland" :=
  ⟨(c8_walk_time_contract 6 "Adventureland" "Adventureland").1,
   (c8_walk_time_contract 999 "Adventureland" "Tomorrowland").2.1 (by decide) (by decide),
   (c8_walk_time_contract 6 "Adventureland" "Castle Courtyard").2.2.1 magicKingdom rfl
     (by decide) (by decide) (by decide),
   (c8_walk_time_contract 6 "Adventureland" "Tomorrowland").2.2.2⟩

theorem round_half_even_intCast (n : ℤ) : round_half_even ((n : ℚ)) = n := by
  simp [round_half_even, Rat.num_intCast, Rat.den_intCast, Int.fdiv_one]

theorem round1_intCast (n : ℤ) : round1 ((n : ℚ)) = ((n : ℚ)) := by
  have h : ((n : ℚ)) * 10 = (((n * 10 : ℤ)) : ℚ) := by push_cast; ring
  rw [round1, h, round_half_even_intCast]
  push_cast
  rw [mul_div_assoc]
  norm_num

/-- Evaluation of `compare_to_average` when the difference and the scaled
relative difference are whole numbers (as in the spec's worked examples). -/
theorem compare_to_average_int (current : Int) (avg : ℚ) (h : ¬ avg = 0) (d p : ℤ)
    (hd : (current : ℚ) - avg = (d : ℚ))
    (hp : ((current : ℚ) - avg) / avg * 100 = (p : ℚ)) :
    compare_to_average current avg
      = { difference := (d : ℚ), percent_diff := some ((p : ℚ)),
          status := spec_bucket ((p : ℚ)) } := by
  simp only [compare_to_average, if_neg h]
  rw [hp, hd, round1_intCast, round1_intCast]
  simp only [spec_bucket]

/-- C9: `compare_to_average` reports `no_baseline` with a null
`percent_diff` exactly when the average is 0; otherwise `percent_diff` is
the rounded relative difference and the status is the spec's bucket chain
with boundaries inclusive toward the lower bucket, as the worked boundary
examples confirm. -/
theorem c9_compare_to_average (current : Int) (avg : ℚ) :
    ((compare_to_average current avg).status = "no_baseline" ↔ avg = 0)
    ∧ ((compare_to_average current avg).percent_diff = none ↔ avg = 0)
    ∧ (avg ≠ 0 →
        (compare_to_average current avg).percent_diff
          = some (round1 (((current : ℚ) - avg) / avg * 100))
        ∧ (compare_to_average current avg).status
          = spec_bucket (round1 (((current : ℚ) - avg) / avg * 100)))
    ∧ compare_to_average 80 100
        = { difference := -20, percent_diff := some (-20), status := "much_lower" }
    ∧ compare_to_average 90 100
        = { difference := -10, percent_diff := some (-10), status := "lower" }
    ∧ compare_to_average 100 100
        = { difference := 0, percent_diff := some 0, status := "typical" }
    ∧ compare_to_average 110 100
        = { difference := 10, percent_diff := some 10, status := "typical" }
    ∧ compare_to_average 111 100
        = { difference := 11, percent_diff := some 11, status := "higher" } := by
  refine ⟨?_, ?_, ?_,
    by rw [compare_to_average_int 80 100 (by norm_num) (-20) (-20) (by norm_num) (by norm_num)]
       norm_num [spec_bucket],
    by rw [compare_to_average_int 90 100 (by norm_num) (-10) (-10) (by norm_num) (by norm_num)]
       norm_num [spec_bucket],
    by rw [compare_to_average_int 100 100 (by norm_num) 0 0 (by norm_num) (by norm_num)]
       norm_num [spec_bucket],
    by rw [compare_to_average_int 110 100 (by norm_num) 10 10 (by norm_num) (by norm_num)]
       norm_num [spec_bucket],
    by rw [compare_to_average_int 111 100 (by norm_num) 11 11 (by norm_num) (by norm_num)]
       norm_num [spec_bucket]⟩
  · by_cases h : avg = 0
    · simp [compare_to_average, h]
    · simp only [compare_to_average, if_neg h]
      constructor
      · intro hs
        revert hs
        split_ifs <;> (intro hs; exact absurd hs (by decide))
      · intro h0
        exact absurd h0 h
  · by_cases h : avg = 0
    · simp [compare_to_average, h]
    · simp only [compare_to_average, if_neg h]
      constructor
      · intro hs
        exact absurd hs (by simp)
      · intro h0
        exact absurd h0 h
  · intro h
    simp [compare_to_average, if_neg h, spec_bucket]

theorem c9_compare_to_average_witness :
    (compare_to_average 50 0).status = "no_baseline"
    ∧ (compare_to_average 111 100).status
        = spec_bucket (round1 ((((111 : Int) : ℚ) - 100) / 100 * 100)) :=
  ⟨(c9_compare_to_average 50 0).1.mpr rfl,
   ((c9_compare_to_average 111 100).2.2.1 (by decide)).2⟩

/-- C4: with no time budget, the emitted route is exactly the candidate
list (open rides with a non-null wait, after must-do filtering) — as a
multiset of (name, land, wait) triples, so no ride is dropped and none is
duplicated.  `so` is the unspecified CPython iteration order of the land
set, so the hypothesis says it enumerates the candidate lands once each. -/
theorem c4_no_budget_completeness (park_id : Int) (rides : List Ride) (must_do : List String)
    (hist : List (String × ℚ)) (hr : Int) (so : List String)
    (hso : so.Perm (group_lands (candidates rides must_do))) :
    ((optimize_route park_id rides must_do hist none hr so).route.map proj_item).Perm
      ((candidates rides must_do).map key_ride) := by
  by_cases h : candidates rides must_do = []
  · rw [optimize_route_empty park_id rides must_do hist none hr so h, h]
    exact List.Perm.refl _
  · rw [optimize_route_state park_id rides must_do hist none hr so h]
    set S := scored_candidates rides must_do hist hr with hSdef
    set L := get_land_order park_id so with hLdef
    have hroute : (final_state park_id rides must_do hist none hr so).route.map proj_item
        = (L.map (fun l =>
            (sort_by_score (S.filter (fun r => r.land == l))).map (proj_ride l))).flatten := by
      simp only [final_state, ← hSdef, ← hLdef]
      rw [emit_lands_route_none]
      simp
    have hstep2 : ∀ l, (sort_by_score (S.filter (fun r => r.land == l))).map (proj_ride l)
        = (sort_by_score (S.filter (fun r => r.land == l))).map key_ride := by
      intro l
      apply List.map_congr_left
      intro r hr'
      have hrm : r ∈ S.filter (fun r => r.land == l) :=
        (sort_by_score_perm _).mem_iff.mp hr'
      rw [List.mem_filter] at hrm
      have hl : r.land = l := by simpa using hrm.2
      simp [proj_ride, key_ride, hl]
    have hgl : group_lands S = group_lands (candidates rides must_do) :=
      group_lands_map_score (candidates rides must_do) _ (fun r => rfl)
    have hL : L.Perm (group_lands S) :=
      (get_land_order_perm park_id so).trans (hso.trans (by rw [hgl]))
    have hS : S.map key_ride = (candidates rides must_do).map key_ride := by
      rw [hSdef]
      simp only [scored_candidates, List.map_map]
      apply List.map_congr_left
      intro r _
      simp [key_ride, Function.comp, waitD]
    have hcov : ∀ r ∈ S, r.land ∈ group_lands S := fun r hr' => mem_group_lands S r hr'
    have h1 : (L.map (fun l =>
          (sort_by_score (S.filter (fun r => r.land == l))).map (proj_ride l))).flatten
        = (L.map (fun l =>
          (sort_by_score (S.filter (fun r => r.land == l))).map key_ride)).flatten := by
      rw [List.map_congr_left (fun l _ => hstep2 l)]
    have h2 : ((L.map (fun l =>
          (sort_by_score (S.filter (fun r => r.land == l))).map key_ride)).flatten).Perm
        ((L.map (fun l => (S.filter (fun r => r.land == l)).map key_ride)).flatten) :=
      flatten_sort_perm (fun l => S.filter (fun r => r.land == l)) (fun _ => key_ride) L
    have h3 : (L.map (fun l => (S.filter (fun r => r.land == l)).map key_ride)).flatten
        = ((L.map (fun l => S.filter (fun r => r.land == l))).flatten).map key_ride := by
      rw [List.map_flatten, List.map_map]
      rfl
    have h4 : (((L.map (fun l => S.filter (fun r => r.land == l))).flatten).map key_ride).Perm
        ((((group_lands S).map (fun l => S.filter (fun r => r.land == l))).flatten).map
          key_ride) :=
      ((hL.map _).flatten).map key_ride
    have h5 : ((((group_lands S).map
          (fun l => S.filter (fun r => r.land == l))).flatten).map key_ride).Perm
        (S.map key_ride) :=
      (flatten_filter_perm (group_lands S) S (group_lands_nodup S) hcov).map key_ride
    show ((final_state park_id rides must_do hist none hr so).route.map proj_item).Perm
      ((candidates rides must_do).map key_ride)
    rw [hroute, h1]
    refine h2.trans ?_
    rw [h3]
    exact h4.trans (h5.trans (by rw [hS]))

theorem c4_no_budget_completeness_witness :
    ((optimize_route 6 [spaceMountain, jungleCruise] [] [] none 12
        ["Tomorrowland", "Adventureland"]).route.map proj_item).Perm
      ((candidates [spaceMountain, jungleCruise] []).map key_ride) :=
  c4_no_budget_completeness 6 [spaceMountain, jungleCruise] [] [] 12
    ["Tomorrowland", "Adventureland"] (by decide)

/-- C10: the historical multiplier is always 1.0, so each ride's priority
score equals its wait time (over exact rationals, `0.7 + 0.3·1 = 1`); hence
the result is independent of the clock hour, and within each land rides are
emitted in ascending order of wait time (for any budget — truncation only
shortens the per-land blocks). -/
theorem c10_neutral_priority (park_id : Int) (rides : List Ride) (must_do : List String)
    (hist : List (String × ℚ)) (mtt : Option Int) (h1 h2 : Int) (so : List String) :
    (∀ r : Ride, score h1 hist r = (waitD r : ℚ))
    ∧ optimize_route park_id rides must_do hist mtt h1 so
        = optimize_route park_id rides must_do hist mtt h2 so
    ∧ (so.Nodup →
        (optimize_route park_id rides must_do hist mtt h1 so).route.Pairwise
          (fun a b => a.land = b.land → a.wait_time ≤ b.wait_time)) := by
  have hscore : ∀ (hr : Int) (r : Ride), score hr hist r = (waitD r : ℚ) := by
    intro hr r
    rw [score, calculate_historical_priority]
    norm_num
  refine ⟨hscore h1, ?_, ?_⟩
  · have hsc : scored_candidates rides must_do hist h1
        = scored_candidates rides must_do hist h2 := by
      simp only [scored_candidates]
      apply List.map_congr_left
      intro r _
      rfl
    simp only [optimize_route]
    rw [hsc]
  · intro hnd
    by_cases h : candidates rides must_do = []
    · rw [optimize_route_empty park_id rides must_do hist mtt h1 so h]
      simp [no_match_result]
    · rw [optimize_route_state park_id rides must_do hist mtt h1 so h]
      show ((final_state park_id rides must_do hist mtt h1 so).route).Pairwise
        (fun a b => a.land = b.land → a.wait_time ≤ b.wait_time)
      set S := scored_candidates rides must_do hist h1 with hSdef
      set ls := get_land_order park_id so with hlsdef
      obtain ⟨L, hfst, hblocks⟩ := emit_lands_route_blocks park_id mtt
        (fun l => sort_by_score (S.filter (fun r => r.land == l))) ls
        { route := [], total_wait_time := 0, total_walk_time := 0, current_land := none }
      have hroute : (final_state park_id rides must_do hist mtt h1 so).route.map proj_item
          = (L.map (fun q =>
              ((sort_by_score (S.filter (fun r => r.land == q.1))).take q.2).map
                (proj_ride q.1))).flatten := by
        simp only [List.map_nil, List.nil_append] at hblocks
        simpa [final_state, ← hSdef, ← hlsdef] using hblocks
      have hkey : ∀ x ∈ S, rkey x = ((waitD x : ℚ)) := by
        intro x hx
        rw [hSdef] at hx
        simp only [scored_candidates, List.mem_map] at hx
        obtain ⟨r, _, rfl⟩ := hx
        simp [rkey, waitD, hscore]
      have hwithin : ∀ b ∈ L.map (fun q =>
            ((sort_by_score (S.filter (fun r => r.land == q.1))).take q.2).map (proj_ride q.1)),
          b.Pairwise (fun x y => x.2.1 = y.2.1 → x.2.2 ≤ y.2.2) := by
        intro b hb
        rw [List.mem_map] at hb
        obtain ⟨q, _, rfl⟩ := hb
        rw [List.pairwise_map]
        have hsorted := sort_by_score_sorted (S.filter (fun r => r.land == q.1))
        have htake := List.Pairwise.sublist
          (List.take_sublist q.2 (sort_by_score (S.filter (fun r => r.land == q.1)))) hsorted
        have hmem : ∀ a ∈ (sort_by_score (S.filter (fun r => r.land == q.1))).take q.2,
            a ∈ S := by
          intro a ha
          have h1' := (List.take_sublist q.2
            (sort_by_score (S.filter (fun r => r.land == q.1)))).subset ha
          have h2' := (sort_by_score_perm (S.filter (fun r => r.land == q.1))).mem_iff.mp h1'
          exact (List.mem_filter.mp h2').1
        refine htake.imp_of_mem ?_
        intro a b ha hb hr
        intro _
        have hr' := hr
        rw [hkey a (hmem a ha), hkey b (hmem b hb)] at hr'
        exact_mod_cast hr'
      have hacross : (L.map (fun q =>
            ((sort_by_score (S.filter (fun r => r.land == q.1))).take q.2).map
              (proj_ride q.1))).Pairwise
          (fun bx bz => ∀ x ∈ bx, ∀ y ∈ bz, x.2.1 = y.2.1 → x.2.2 ≤ y.2.2) := by
        rw [List.pairwise_map]
        have hlsnd : ls.Nodup := (get_land_order_perm park_id so).symm.nodup hnd
        have hLfst : (L.map Prod.fst).Nodup := by
          rw [hfst]
          exact List.Nodup.sublist (List.take_sublist _ _) hlsnd
        have hpw : L.Pairwise (fun q1 q2 => q1.1 ≠ q2.1) := List.pairwise_map.mp hLfst
        refine hpw.imp ?_
        intro q1 q2 hne x hx y hy heq
        rw [List.mem_map] at hx hy
        obtain ⟨r, _, rfl⟩ := hx
        obtain ⟨s, _, rfl⟩ := hy
        exact absurd (by simpa [proj_ride] using heq) hne
      have hflat := List.pairwise_flatten.mpr ⟨hwithin, hacross⟩
      have hmap : ((final_state park_id rides must_do hist mtt h1 so).route.map
          proj_item).Pairwise (fun x y => x.2.1 = y.2.1 → x.2.2 ≤ y.2.2) := by
        rw [hroute]
        exact hflat
      exact (List.pairwise_map.mp hmap).imp (fun hab => hab)

theorem c10_neutral_priority_witness :
    (optimize_route 6 [spaceMountain, jungleCruise] [] [] none 9
        ["Tomorrowland", "Adventureland"]).route.Pairwise
      (fun a b => a.land = b.land → a.wait_time ≤ b.wait_time) :=
  (c10_neutral_priority 6 [spaceMountain, jungleCruise] [] [] none 9 17
    ["Tomorrowland", "Adventureland"]).2.2 (by decide)

end ThemePark
